import Mathlib

/-!
Shallow embedding of `automount.py`: the `HDD` mount-process supervisor
(construction, `is_mounted`, `mount`, `unmount`, `remount`, `current_label`)
and the module-level bulk operations `mount_all` / `unmount_all`.

Python side effects are made explicit:
* a `World` carries the operating system's process state: a fresh-pid
  counter, a schedule saying whether each successive `subprocess.Popen`
  call raises (`OSError`, e.g. binary missing) or succeeds, and a log of
  the spawn calls that were actually performed;
* a raised exception is an `Option OSError` component of the result
  (`some e` means the Python call raised `e`; state changes made before
  the raise persist, as in Python);
* the filesystem seen by `os.mkdir` is the list of existing directories.
-/

/-- Errors raised by modelled OS calls: `subprocess.Popen` raising because
the external binary is missing, and `os.mkdir` raising because the
directory already exists. -/
inductive OSError where
  | fileNotFound
  | fileExists
deriving DecidableEq, Repr

/-- A subprocess handle as recorded by `subprocess.Popen`: the process id
and whether the process has exited. -/
structure Proc where
  pid : Nat
  exited : Bool
deriving DecidableEq, Repr

/-- `Popen.poll()`: non-blocking; returns `some` exit code when the process
has exited, `none` while it is still running. -/
def Proc.poll (p : Proc) : Option Int :=
  if p.exited then some 0 else none

/-- One invocation of `subprocess.Popen` as performed by `HDD.mount`
(source lines 43-59): the argument vector, whether stderr was merged into
stdout (`stderr = subprocess.STDOUT`), and whether the process was started
in a new process group (`creationflags = CREATE_NEW_PROCESS_GROUP`). -/
structure SpawnCall where
  args : List String
  merge_stderr : Bool
  new_process_group : Bool
deriving DecidableEq, Repr

/-- Operating-system state threaded through the supervisor: the next fresh
pid, the schedule of spawn outcomes (`true` = the next `Popen` raises),
and the log of spawn calls that succeeded. -/
structure World where
  nextPid : Nat
  failures : List Bool
  calls : List SpawnCall
deriving DecidableEq, Repr

/-- `subprocess.Popen`: consult the outcome schedule; on failure raise
`OSError.fileNotFound` leaving the process state untouched, on success
hand out a fresh live process handle and log the call. -/
def World.spawn (w : World) (c : SpawnCall) : World × Option Proc :=
  match w.failures with
  | [] =>
    ({ nextPid := w.nextPid + 1, failures := [], calls := w.calls ++ [c] },
     some { pid := w.nextPid, exited := false })
  | b :: rest =>
    if b then
      ({ w with failures := rest }, none)
    else
      ({ nextPid := w.nextPid + 1, failures := rest, calls := w.calls ++ [c] },
       some { pid := w.nextPid, exited := false })

/-- The filesystem as seen by `os.mkdir`: the set of existing directories. -/
abbrev FS := List String

/-- `os.mkdir`: create the directory, raising `OSError` when it already
exists. -/
def mkdir (fs : FS) (d : String) : FS × Option OSError :=
  if d ∈ fs then (fs, some .fileExists) else (fs ++ [d], none)

/-- Constructor arguments of `HDD.__init__` (source line 15), including the
`extra_args` keyword parameter. -/
structure Config where
  hostname : String
  mount_dir : String
  mount_point : String
  volume_name : String := "HDD"
  cache_dir : String := "temp"
  extra_args : List String := []
deriving DecidableEq, Repr

/-- The `HDD` object's attributes (source lines 16-27). `process` is the
optional subprocess handle; `thread` is the `self.thread` attribute, which
`__init__` sets to `None` and no other method ever assigns (the relay
thread started in `mount` is not stored). `extra_args` is not among the
attributes: `__init__` never stores it. -/
structure HDD where
  hostname : String
  mount_dir : String
  mount_point : String
  volume_name : String
  cache_dir : String
  process : Option Proc
  thread : Option Nat
deriving DecidableEq, Repr

/-- `HDD.__init__` (source lines 15-27): store the configuration fields,
attempt `os.mkdir(cache_dir)` swallowing any `OSError`, and initialise
`process` and `thread` to `None`. The `extra_args` parameter is read from
`c` nowhere: the source accepts it and drops it. Construction itself
never raises. -/
def HDD.init (fs : FS) (c : Config) : FS × HDD :=
  ((mkdir fs c.cache_dir).1,
   { hostname := c.hostname, mount_dir := c.mount_dir,
     mount_point := c.mount_point, volume_name := c.volume_name,
     cache_dir := c.cache_dir, process := none, thread := none })

/-- `HDD.is_mounted` (source lines 37-38):
`self.process is not None and self.process.poll() is None`. -/
def HDD.is_mounted (u : HDD) : Bool :=
  match u.process with
  | none => false
  | some p => p.poll.isNone

/-- The argument vector `HDD.mount` passes to `subprocess.Popen`
(source lines 44-54), verbatim. -/
def HDD.mountArgs (u : HDD) : List String :=
  ["C:\\bin\\rclone",
   "mount", u.hostname ++ ":" ++ u.mount_dir, u.mount_point,
   "--volname", u.volume_name,
   "--vfs-cache-mode", "writes",
   "--cache-dir", u.cache_dir ++ "\\" ++ u.mount_dir,
   "--file-perms", "0777",
   "--dir-perms", "0777",
   "--no-modtime",
   "--no-console"]

/-- `HDD.mount` (source lines 40-60): under the unit's lock, if the unit is
not mounted, spawn the external binary with `mountArgs`, stderr merged into
stdout and a new process group, and record the handle in `self.process`.
If `Popen` raises, the exception propagates and no attribute is assigned.
If already mounted, do nothing. The Python function returns `None`; a
raised exception is the `Option OSError` component. -/
def HDD.mount (w : World) (u : HDD) : (World × HDD) × Option OSError :=
  if u.is_mounted then ((w, u), none)
  else
    match World.spawn w { args := u.mountArgs, merge_stderr := true, new_process_group := true } with
    | (w', none) => ((w', u), some .fileNotFound)
    | (w', some p) => ((w', { u with process := some p }), none)

/-- `HDD.unmount` (source lines 62-67): under the lock, if mounted, send
`CTRL_BREAK_EVENT`, wait for exit, and set `self.process = None`; otherwise
fall through. Neither branch has a `return` statement, so the Python call
returns `None` either way and never raises: the `Option OSError` component
is `none` on both paths. -/
def HDD.unmount (u : HDD) : HDD × Option OSError :=
  if u.is_mounted then ({ u with process := none }, none) else (u, none)

/-- `HDD.remount` (source lines 69-71): `self.unmount()` then
`self.mount()`; an exception raised by either call propagates. -/
def HDD.remount (w : World) (u : HDD) : (World × HDD) × Option OSError :=
  match u.unmount with
  | (u', some e) => ((w, u'), some e)
  | (u', none) => HDD.mount w u'

/-- `HDD.current_label` (source lines 73-77): ignores its `icon` argument
and renders one of two strings from `is_mounted()` and the volume name. -/
def HDD.current_label {α : Type} (u : HDD) (icon : α) : String :=
  if u.is_mounted then "✅ " ++ u.volume_name
  else "🚫 " ++ u.volume_name

/-- `mount_all` (source lines 88-90): `for hdd in all_hdds: hdd.mount()`.
There is no exception handling: when one unit's `mount` raises, the loop
aborts, the exception propagates, and the remaining units are returned
untouched. -/
def mount_all (w : World) (hdds : List HDD) : (World × List HDD) × Option OSError :=
  match hdds with
  | [] => ((w, []), none)
  | h :: t =>
    match HDD.mount w h with
    | ((w', h'), some e) => ((w', h' :: t), some e)
    | ((w', h'), none) =>
      match mount_all w' t with
      | ((w'', t'), r) => ((w'', h' :: t'), r)

/-- `unmount_all` (source lines 92-94): `for hdd in all_hdds: hdd.unmount()`
with the same propagation structure as `mount_all`. -/
def unmount_all (hdds : List HDD) : List HDD × Option OSError :=
  match hdds with
  | [] => ([], none)
  | h :: t =>
    match h.unmount with
    | (h', some e) => (h' :: t, some e)
    | (h', none) =>
      match unmount_all t with
      | (t', r) => (h' :: t', r)

/-! Concrete sample values used by witnesses and counterexamples. -/

/-- A live subprocess handle with pid 3. -/
def sampleProc : Proc := { pid := 3, exited := false }

/-- A unit whose recorded process is alive: the Mounted state. -/
def sampleMounted : HDD :=
  { hostname := "nas", mount_dir := "media", mount_point := "Z:",
    volume_name := "HDD", cache_dir := "temp",
    process := some sampleProc, thread := none }

/-- A freshly constructed unit: no process handle. -/
def sampleFresh : HDD :=
  { hostname := "nas", mount_dir := "media", mount_point := "Z:",
    volume_name := "HDD", cache_dir := "temp",
    process := none, thread := none }

/-- A second fresh unit for bulk-operation scenarios. -/
def sampleB : HDD :=
  { hostname := "nas2", mount_dir := "backup", mount_point := "Y:",
    volume_name := "HDD2", cache_dir := "temp",
    process := none, thread := none }

/-- A world in which every spawn succeeds; pid 3 is already in use. -/
def sampleWorld : World := { nextPid := 5, failures := [], calls := [] }

/-- A world in which every spawn succeeds, starting from pid 0. -/
def worldEmpty : World := { nextPid := 0, failures := [], calls := [] }

/-- A world whose first spawn raises and whose later spawns succeed. -/
def failWorld : World := { nextPid := 0, failures := [true], calls := [] }

/-- A configuration carrying non-empty extra_args. -/
def cfgExtra : Config :=
  { hostname := "nas", mount_dir := "media", mount_point := "Z:",
    extra_args := ["--transfers", "8"] }

/-- The same configuration with extra_args left at its default empty list. -/
def cfgPlain : Config :=
  { hostname := "nas", mount_dir := "media", mount_point := "Z:" }

/-- Helper: neither branch of `HDD.unmount` raises. -/
theorem HDD.unmount_never_raises (u : HDD) : (HDD.unmount u).2 = none := by
  unfold HDD.unmount
  split <;> rfl

/-- Claim C1: for every unit that is already Mounted (process handle present
and not exited), `mount()` returns without error, performs no spawn (the
world, including its spawn log and pid counter, is unchanged), and leaves
the recorded process handle (indeed the whole unit) unchanged; hence a
second `mount()` after a successful one is a no-op and exactly one live
subprocess results. -/
theorem mount_idempotent (w : World) (u : HDD) (h : u.is_mounted = true) :
    HDD.mount w u = ((w, u), none) := by
  simp [HDD.mount, h]

/-- Witness for C1 at a concrete mounted unit. -/
theorem mount_idempotent_witness :
    sampleMounted.is_mounted = true
  ∧ HDD.mount sampleWorld sampleMounted = ((sampleWorld, sampleMounted), none) :=
  ⟨rfl, mount_idempotent sampleWorld sampleMounted rfl⟩

/-- Claim C4: `is_mounted()` is true iff the process handle is present and
the non-blocking poll reports the process has not exited; it is false on a
freshly constructed unit, and false immediately after `unmount()`. -/
theorem is_mounted_spec (u : HDD) (fs : FS) (c : Config) :
    (u.is_mounted = true ↔ ∃ p, u.process = some p ∧ p.poll = none)
  ∧ (HDD.init fs c).2.is_mounted = false
  ∧ (HDD.unmount u).1.is_mounted = false := by
  refine ⟨?_, ?_, ?_⟩
  · cases hp : u.process with
    | none => simp [HDD.is_mounted, hp]
    | some p => simp [HDD.is_mounted, hp, Option.isNone_iff_eq_none]
  · simp [HDD.init, HDD.is_mounted]
  · cases h : u.is_mounted with
    | true =>
      simp only [HDD.unmount, h, if_true]
      simp [HDD.is_mounted]
    | false => simp [HDD.unmount, h]

/-- Claim C5: spawn failure is atomic: for a unit whose process field is
absent, if the spawn raises, `mount()` surfaces the error (the exception
component is `some`) and the unit is returned unchanged, its process field
still absent. -/
theorem spawn_failure_atomic (w : World) (u : HDD) (h : u.process = none)
    (hf : w.failures.head? = some true) :
    HDD.mount w u = (({ w with failures := w.failures.tail }, u), some .fileNotFound)
  ∧ (HDD.mount w u).1.2.process = none := by
  have hm : u.is_mounted = false := by simp [HDD.is_mounted, h]
  cases hfs : w.failures with
  | nil => rw [hfs] at hf; simp at hf
  | cons b rest =>
    rw [hfs] at hf
    simp at hf
    subst hf
    refine ⟨?_, ?_⟩ <;> simp [HDD.mount, hm, World.spawn, hfs, h]

/-- Witness for C5 at a concrete fresh unit and a failing spawn. -/
theorem spawn_failure_atomic_witness :
    sampleFresh.process = none
  ∧ (HDD.mount failWorld sampleFresh).1.2.process = none :=
  ⟨rfl, (spawn_failure_atomic failWorld sampleFresh rfl rfl).2⟩

/-- Claim C10: construction stores no process handle and no relay thread,
and its only filesystem effect is an attempted creation of the cache
directory whose `OSError` is swallowed: the constructor is a total
function (it never fails), the resulting filesystem is unchanged when the
directory already exists and gains the directory otherwise. -/
theorem init_spec (fs : FS) (c : Config) :
    (HDD.init fs c).2.process = none
  ∧ (HDD.init fs c).2.thread = none
  ∧ (HDD.init fs c).1 = (mkdir fs c.cache_dir).1
  ∧ (HDD.init fs c).1 = (if c.cache_dir ∈ fs then fs else fs ++ [c.cache_dir]) := by
  refine ⟨rfl, rfl, rfl, ?_⟩
  by_cases hmem : c.cache_dir ∈ fs <;> simp [HDD.init, mkdir, hmem]

/-- Claim C2 counterexample: `unmount()` on an Unmounted unit does NOT
return an indicator distinguishable from the success path. Both the
never-mounted unit and the mounted unit get the identical observable call
outcome (a normal return of None, no exception): the source has no return
statement on either branch. -/
theorem unmount_no_indicator_counterexample :
    sampleFresh.is_mounted = false
  ∧ sampleMounted.is_mounted = true
  ∧ (HDD.unmount sampleFresh).2 = (HDD.unmount sampleMounted).2 := by
  decide

/-- Claim C2 (amended): `unmount()` on an Unmounted unit is a benign no-op:
it does not raise and leaves the unit's state unchanged; however its
returned value is the same None as on the success path, so the no-op is
not distinguishable from a successful unmount by the return value. -/
theorem unmount_noop_on_unmounted (u v : HDD) (h : u.is_mounted = false) :
    HDD.unmount u = (u, none)
  ∧ (HDD.unmount u).2 = (HDD.unmount v).2 := by
  constructor
  · simp [HDD.unmount, h]
  · rw [HDD.unmount_never_raises, HDD.unmount_never_raises]

/-- Witness for the amended C2 at a concrete never-mounted unit. -/
theorem unmount_noop_on_unmounted_witness :
    sampleFresh.is_mounted = false
  ∧ HDD.unmount sampleFresh = (sampleFresh, none) :=
  ⟨rfl, (unmount_noop_on_unmounted sampleFresh sampleMounted rfl).1⟩

/-- Claim C9: `current_label()` is a pure function of `is_mounted()` and
the fixed volume name: units agreeing on those get the same label whatever
the icon arguments (the icon parameter is ignored), and the label is the
mounted variant exactly when `is_mounted()` is true, the unmounted variant
otherwise. -/
theorem current_label_spec {α β : Type} (u v : HDD) (i : α) (j : β)
    (h1 : u.is_mounted = v.is_mounted) (h2 : u.volume_name = v.volume_name) :
    HDD.current_label u i = HDD.current_label v j
  ∧ (u.is_mounted = true → HDD.current_label u i = "✅ " ++ u.volume_name)
  ∧ (u.is_mounted = false → HDD.current_label u i = "🚫 " ++ u.volume_name) := by
  refine ⟨?_, ?_, ?_⟩
  · simp [HDD.current_label, h1, h2]
  · intro h
    simp [HDD.current_label, h]
  · intro h
    simp [HDD.current_label, h]

/-- Witness for C9: a mounted unit labelled with two different icon values. -/
theorem current_label_spec_witness :
    HDD.current_label sampleMounted (0 : Nat) = HDD.current_label sampleMounted true
  ∧ HDD.current_label sampleMounted (0 : Nat) = "✅ " ++ "HDD" := by
  have h := current_label_spec sampleMounted sampleMounted (0 : Nat) true rfl rfl
  exact ⟨h.1, h.2.1 rfl⟩

/-- Claim C6 counterexample: a unit constructed with non-empty extra_args.
The extra arguments appear nowhere in the spawn argument vector, and the
constructed unit is identical to one constructed without them: extra_args
is neither stored nor passed through. -/
theorem extra_args_dropped_counterexample :
    cfgExtra.extra_args = ["--transfers", "8"]
  ∧ "--transfers" ∉ (HDD.init [] cfgExtra).2.mountArgs
  ∧ "8" ∉ (HDD.init [] cfgExtra).2.mountArgs
  ∧ (HDD.init [] cfgExtra).2 = (HDD.init [] cfgPlain).2 := by
  decide

/-- Claim C6 (amended): the extra_args constructor parameter is accepted
but discarded: construction is constant in it, so it is not stored on the
unit, and the spawn argument vector - a function of the stored fields
only - never receives it. -/
theorem extra_args_ignored (fs : FS) (c : Config) (xs ys : List String) :
    HDD.init fs { c with extra_args := xs } = HDD.init fs { c with extra_args := ys } := rfl

/-- Helper: `mount` on a non-mounted unit, when the scheduled spawn
succeeds, logs exactly one spawn call carrying `mountArgs` with stderr
merged and a new process group, and records a fresh live handle. -/
theorem HDD.mount_spawn_eq (w : World) (u : HDD) (h : u.is_mounted = false)
    (hok : w.failures.head?.getD false = false) :
    HDD.mount w u =
      (({ nextPid := w.nextPid + 1, failures := w.failures.tail,
          calls := w.calls ++ [{ args := u.mountArgs, merge_stderr := true, new_process_group := true }] },
        { u with process := some { pid := w.nextPid, exited := false } }), none) := by
  cases hfs : w.failures with
  | nil => simp [HDD.mount, h, World.spawn, hfs]
  | cons b rest =>
    rw [hfs] at hok
    simp at hok
    subst hok
    simp [HDD.mount, h, World.spawn, hfs]

/-- Claim C8: for a unit with no process handle, when the spawn succeeds,
`mount()` spawns exactly one subprocess whose argument vector is the
rclone command encoding hostname:remoteDir, the mount target, the volume
name, the cache-mode flag, the per-drive cache directory under the cache
root, the permission bits and the console-suppression flag, with stderr
merged into stdout; the fresh process handle is recorded on the unit. -/
theorem mount_spawn_spec (w : World) (u : HDD) (h : u.process = none)
    (hok : w.failures.head?.getD false = false) :
    HDD.mount w u =
      (({ nextPid := w.nextPid + 1, failures := w.failures.tail,
          calls := w.calls ++ [{ args := u.mountArgs, merge_stderr := true, new_process_group := true }] },
        { u with process := some { pid := w.nextPid, exited := false } }), none)
  ∧ u.mountArgs =
      ["C:\\bin\\rclone",
       "mount", u.hostname ++ ":" ++ u.mount_dir, u.mount_point,
       "--volname", u.volume_name,
       "--vfs-cache-mode", "writes",
       "--cache-dir", u.cache_dir ++ "\\" ++ u.mount_dir,
       "--file-perms", "0777",
       "--dir-perms", "0777",
       "--no-modtime",
       "--no-console"] := by
  have hm : u.is_mounted = false := by simp [HDD.is_mounted, h]
  exact ⟨HDD.mount_spawn_eq w u hm hok, rfl⟩

/-- Witness for C8 at a concrete fresh unit in a world where spawns succeed. -/
theorem mount_spawn_spec_witness :
    sampleFresh.process = none
  ∧ (HDD.mount worldEmpty sampleFresh).1.2.process = some { pid := 0, exited := false }
  ∧ (HDD.mount worldEmpty sampleFresh).2 = none := by
  have h := (mount_spawn_spec worldEmpty sampleFresh rfl (by decide)).1
  rw [h]
  exact ⟨rfl, rfl, rfl⟩

/-- Claim C7: `remount()` is exactly `unmount()` followed by `mount()`; on
a mounted unit whose recorded pid is fresh-bounded by the world's pid
counter, with the spawn succeeding, it leaves the unit mounted with a
newly spawned process whose identity differs from the one live before. -/
theorem remount_replaces_process (w : World) (u : HDD) (p : Proc)
    (hp : u.process = some p) (hm : u.is_mounted = true)
    (hfresh : p.pid < w.nextPid)
    (hok : w.failures.head?.getD false = false) :
    HDD.remount w u = HDD.mount w (HDD.unmount u).1
  ∧ ∃ q : Proc,
      (HDD.remount w u).1.2.process = some q
    ∧ (HDD.remount w u).2 = none
    ∧ (HDD.remount w u).1.2.is_mounted = true
    ∧ q.pid ≠ p.pid := by
  have hun : HDD.unmount u = ({ u with process := none }, none) := by
    simp [HDD.unmount, hm]
  have hnm : ({ u with process := none } : HDD).is_mounted = false := by
    simp [HDD.is_mounted]
  have h2 := HDD.mount_spawn_eq w { u with process := none } hnm hok
  have hr : HDD.remount w u =
      (({ nextPid := w.nextPid + 1, failures := w.failures.tail,
          calls := w.calls ++ [{ args := u.mountArgs, merge_stderr := true, new_process_group := true }] },
        { u with process := some { pid := w.nextPid, exited := false } }), none) := by
    unfold HDD.remount
    rw [hun]
    exact h2
  refine ⟨?_, { pid := w.nextPid, exited := false }, ?_, ?_, ?_, ?_⟩
  · unfold HDD.remount
    rw [hun]
  · rw [hr]
  · rw [hr]
  · rw [hr]
    simp [HDD.is_mounted, Proc.poll]
  · exact Ne.symm (Nat.ne_of_lt hfresh)

/-- Witness for C7 at a concrete mounted unit (pid 3) and a world whose
next fresh pid is 5. -/
theorem remount_replaces_process_witness :
    sampleProc.pid < sampleWorld.nextPid
  ∧ (HDD.remount sampleWorld sampleMounted).1.2.is_mounted = true
  ∧ (HDD.remount sampleWorld sampleMounted).2 = none := by
  have h := remount_replaces_process sampleWorld sampleMounted sampleProc rfl rfl
    (by decide) (by decide)
  obtain ⟨-, q, -, h2, h3, -⟩ := h
  exact ⟨by decide, h3, h2⟩

/-- Claim C3 counterexample: two fresh units, the first spawn raises and
any later spawn would succeed. The run aborts with the propagated
exception, the world records zero spawn calls, and the second unit is
returned untouched - even though mounting it in the post-failure world
would have succeeded. The failure is not collected and the remaining unit
is not attempted. -/
theorem mount_all_aborts_counterexample :
    mount_all failWorld [sampleFresh, sampleB]
      = ((worldEmpty, [sampleFresh, sampleB]), some OSError.fileNotFound)
  ∧ worldEmpty.calls = []
  ∧ (HDD.mount worldEmpty sampleB).1.2.process = some { pid := 0, exited := false } := by
  decide

/-- Claim C3 (amended): `mount_all` iterates in configuration order but
has no error collection: as soon as one unit's `mount` raises, the raised
error propagates out of the loop and the units after the failing one are
returned untouched, not attempted. -/
theorem mount_all_stops_at_first_failure (w : World) (u : HDD) (t : List HDD) (e : OSError)
    (hfail : (HDD.mount w u).2 = some e) :
    mount_all w (u :: t) = (((HDD.mount w u).1.1, (HDD.mount w u).1.2 :: t), some e) := by
  rcases hEq : HDD.mount w u with ⟨⟨w', u'⟩, r⟩
  rw [hEq] at hfail
  dsimp only at hfail
  subst hfail
  unfold mount_all
  rw [hEq]

/-- Witness for the amended C3: the first unit's spawn raises and the run
stops there with the second unit untouched. -/
theorem mount_all_stops_witness :
    (HDD.mount failWorld sampleFresh).2 = some OSError.fileNotFound
  ∧ mount_all failWorld [sampleFresh, sampleB]
      = (((HDD.mount failWorld sampleFresh).1.1,
          (HDD.mount failWorld sampleFresh).1.2 :: [sampleB]), some OSError.fileNotFound) :=
  ⟨by decide,
   mount_all_stops_at_first_failure failWorld sampleFresh [sampleB] OSError.fileNotFound (by decide)⟩
